import Mathlib

/-!
Verification of the OpenSea floor-monitor engine (TypeScript sources under
`src/src/`): the per-collection floor tracker (`floorTracker.ts`,
class `FloorTracker`), the alert decision logic of
`OpenSeaFloorMonitor.handleListingEvent` (`index.ts`), and the
notification dispatcher (class `Notifier`).

Modelling conventions of the shallow embedding:
* JavaScript numbers that hold parsed prices are modelled as `ℚ`
  (`parseFloat(base_price)`, `parseFloat(usd_price || '0')` are assumed to
  yield finite values; the spec delegates numeric validation upstream).
* A TypeScript optional field `x?: T` is an `Option`; the JS truthiness
  test `if (settings.x && ...)` on a number is `x ≠ 0` on a present value,
  and on a string it is `s ≠ ""`.
* The mutable `floors` object of `FloorTracker` is a total function
  `String → Option FloorData`; methods become state-passing functions.
* Promise rejection (a non-2xx HTTP status or transport error inside
  `makeHttpsRequest`) is an `Except` error; `await` of a rejecting promise
  short-circuits the surrounding `async` function with that error.
* For the aliasing behaviour of `getAllFloors` (`return { ...this.floors }`)
  a second model with an explicit heap of record objects is used, since the
  spread operator copies the top-level object but shares the `FloorData`
  references it contains.
-/

namespace FloorMonitor

/-- `payment_token` of a `ListingEvent` payload (`types.ts`).
`usd_price` is a string in the source; we model the parsed value, with
`none` standing for an empty/absent string so that
`parseFloat(payment_token.usd_price || '0')` becomes `usd_price.getD 0`. -/
structure PaymentToken where
  symbol : String
  decimals : Nat
  usd_price : Option ℚ
deriving DecidableEq, Repr

/-- The fields of a `ListingEvent` payload that the engine reads
(`types.ts`): `base_price` models `parseFloat(base_price)` of the integer
price string, `event_timestamp` models `parseInt(event_timestamp, 10)`.
Item metadata (name, image, permalink) is used only for message formatting
and carries no decision content, so it is omitted. -/
structure ListingPayload where
  base_price : ℚ
  payment_token : PaymentToken
  event_timestamp : Int
  collectionSlug : String
  collectionName : Option String
deriving DecidableEq, Repr

/-- A listing event as consumed by the engine (`types.ts`). -/
structure ListingEvent where
  payload : ListingPayload
deriving DecidableEq, Repr

/-- `FloorData` (`types.ts`): the per-collection floor record. -/
structure FloorData where
  price : ℚ
  priceUSD : ℚ
  timestamp : Int
  tokenSymbol : String
deriving DecidableEq, Repr

/-- `CollectionFloors` (`types.ts`): the `floors` map of `FloorTracker`,
modelled as a total function so absent keys are `none`. -/
abbrev CollectionFloors := String → Option FloorData

/-- The empty `floors` map (`private floors: CollectionFloors = {}`). -/
def emptyFloors : CollectionFloors := fun _ => none

/-- `parseFloat(base_price) / Math.pow(10, payment_token.decimals)`,
the normalized listing price computed identically in
`FloorTracker.updateFloor`, `FloorTracker.isUndercut` and
`handleListingEvent`. -/
def normalizedPrice (e : ListingEvent) : ℚ :=
  e.payload.base_price / (10 : ℚ) ^ e.payload.payment_token.decimals

/-- `priceInEth * parseFloat(payment_token.usd_price || '0')` from
`FloorTracker.updateFloor`. -/
def usdValue (e : ListingEvent) : ℚ :=
  normalizedPrice e * (e.payload.payment_token.usd_price.getD 0)

/-- The record object `updateFloor` stores on an update
(`floorTracker.ts` lines 15-20). -/
def newFloorRecord (e : ListingEvent) : FloorData :=
  { price := normalizedPrice e
    priceUSD := usdValue e
    timestamp := e.payload.event_timestamp
    tokenSymbol := e.payload.payment_token.symbol }

namespace FloorTracker

/-- `FloorTracker.updateFloor(collectionSlug, event)` (`floorTracker.ts`
lines 6-25): if no floor exists or the new normalized price is strictly
lower, store a fresh record and return `true`; otherwise leave the map
untouched and return `false`.  State passing replaces the `this.floors`
mutation. -/
def updateFloor (floors : CollectionFloors) (collectionSlug : String)
    (e : ListingEvent) : Bool × CollectionFloors :=
  let priceInEth := normalizedPrice e
  match floors collectionSlug with
  | none =>
      (true, fun c => if c = collectionSlug then some (newFloorRecord e) else floors c)
  | some currentFloor =>
      if priceInEth < currentFloor.price then
        (true, fun c => if c = collectionSlug then some (newFloorRecord e) else floors c)
      else
        (false, floors)

/-- `FloorTracker.getFloor` (`floorTracker.ts` lines 27-29). -/
def getFloor (floors : CollectionFloors) (collectionSlug : String) : Option FloorData :=
  floors collectionSlug

/-- The verdict object returned by `FloorTracker.isUndercut`. -/
structure UndercutVerdict where
  isUndercut : Bool
  listingPrice : ℚ
  floorPrice : ℚ
  percentBelow : ℚ
deriving DecidableEq, Repr

/-- `FloorTracker.isUndercut(collectionSlug, event, thresholdPercent)`
(`floorTracker.ts` lines 31-59): with no floor record the verdict is
`false` with zero floor price and percent; otherwise
`percentBelow = (floor.price - listingPrice) / floor.price * 100` and the
flag is `percentBelow >= thresholdPercent`. -/
def isUndercut (floors : CollectionFloors) (collectionSlug : String)
    (e : ListingEvent) (thresholdPercent : ℚ) : UndercutVerdict :=
  let listingPrice := normalizedPrice e
  match getFloor floors collectionSlug with
  | none =>
      { isUndercut := false, listingPrice := listingPrice, floorPrice := 0, percentBelow := 0 }
  | some currentFloor =>
      let percentBelow := ((currentFloor.price - listingPrice) / currentFloor.price) * 100
      { isUndercut := decide (percentBelow ≥ thresholdPercent)
        listingPrice := listingPrice
        floorPrice := currentFloor.price
        percentBelow := percentBelow }

/-- `FloorTracker.clearFloor` (`floorTracker.ts` lines 65-67). -/
def clearFloor (floors : CollectionFloors) (collectionSlug : String) : CollectionFloors :=
  fun c => if c = collectionSlug then none else floors c

/-- Folding a sequence of listing events for one collection through
`updateFloor`, in arrival order (the per-event call at `index.ts`
line 236 restricted to a single collection). -/
def applyEvents (floors : CollectionFloors) (collectionSlug : String)
    (es : List ListingEvent) : CollectionFloors :=
  es.foldl (fun f e => (updateFloor f collectionSlug e).2) floors

end FloorTracker

/-! ## Settings and the alert decision logic of `handleListingEvent` -/

/-- The fields of `BotSettings` (`settingsManager.ts`) that
`handleListingEvent` reads.  Numeric optionals are `Option ℚ`;
`enableFloorUpdateAlerts` is `Option Bool` because the code tests
`settings.enableFloorUpdateAlerts !== false`, treating an absent value as
enabled; `enablePriceTriggerAlerts` is tested for truthiness, so absent
and `false` coincide and a `Bool` suffices. -/
structure BotSettings where
  enablePriceTriggerAlerts : Bool
  priceAlertMin : Option ℚ
  priceAlertMax : Option ℚ
  minFloorPrice : Option ℚ
  maxFloorPrice : Option ℚ
  enableFloorUpdateAlerts : Option Bool
deriving DecidableEq, Repr

/-- JS truthiness of an optional number: `undefined` and `0` are falsy,
every other (finite) number is truthy. -/
def truthyNum (o : Option ℚ) : Bool :=
  match o with
  | none => false
  | some v => v != 0

/-- The alert intents `handleListingEvent` can hand to the `Notifier`:
`sendPriceTriggerAlert`, `sendUndercutAlert` and `sendFloorUpdateAlert`
calls with their payloads (`index.ts` lines 188-193, 220-225, 245-250). -/
inductive Alert where
  | priceTrigger (listingPrice : ℚ) (tokenSymbol : String) (reason : String)
  | undercut (listingPrice floorPrice percentBelow : ℚ)
  | floorUpdate (collectionSlug : String) (collectionName : Option String)
      (newFloor : ℚ) (tokenSymbol : String)
deriving DecidableEq, Repr

/-- Whether an alert is a price-trigger alert. -/
def Alert.isPriceTriggerAlert : Alert → Bool
  | .priceTrigger _ _ _ => true
  | _ => false

/-- Whether an alert is an undercut alert. -/
def Alert.isUndercutAlert : Alert → Bool
  | .undercut _ _ _ => true
  | _ => false

/-- Whether an alert is a floor-update alert. -/
def Alert.isFloorUpdateAlert : Alert → Bool
  | .floorUpdate _ _ _ _ => true
  | _ => false

/-- The reason string `Below ${settings.priceAlertMin} ETH`
(`index.ts` line 178). -/
def belowReason (m : ℚ) : String := "Below " ++ toString m ++ " ETH"

/-- The reason string `Above ${settings.priceAlertMax} ETH`
(`index.ts` line 184). -/
def aboveReason (m : ℚ) : String := "Above " ++ toString m ++ " ETH"

/-- The price-trigger block of `handleListingEvent` (`index.ts` lines
171-200): `shouldAlert` starts false and `alertReason` empty; the min
check may set them, then the max check may set them again, overwriting the
min reason.  Returns the final `(shouldAlert, alertReason)` pair. -/
def priceTriggerCheck (settings : BotSettings) (listingPrice : ℚ) : Bool × String :=
  let s0 : Bool := false
  let r0 : String := ""
  let p1 : Bool × String :=
    match settings.priceAlertMin with
    | some m => if listingPrice < m then (true, belowReason m) else (s0, r0)
    | none => (s0, r0)
  match settings.priceAlertMax with
  | some m => if listingPrice > m then (true, aboveReason m) else p1
  | none => p1

/-- The alerts produced by the price-trigger section: one
`sendPriceTriggerAlert` call when `shouldAlert`, none otherwise
(`index.ts` lines 187-200). -/
def priceTriggerAlerts (settings : BotSettings) (e : ListingEvent) : List Alert :=
  if settings.enablePriceTriggerAlerts then
    let listingPrice := normalizedPrice e
    let res := priceTriggerCheck settings listingPrice
    if res.1 then
      [Alert.priceTrigger listingPrice e.payload.payment_token.symbol res.2]
    else []
  else []

/-- The guard `settings.minFloorPrice && undercutResult.floorPrice <
settings.minFloorPrice` (`index.ts` line 213): truthiness of the bound,
then the comparison. -/
def minFilterBlocks (settings : BotSettings) (floorPrice : ℚ) : Bool :=
  truthyNum settings.minFloorPrice && decide (floorPrice < settings.minFloorPrice.getD 0)

/-- The guard `settings.maxFloorPrice && undercutResult.floorPrice >
settings.maxFloorPrice` (`index.ts` line 216). -/
def maxFilterBlocks (settings : BotSettings) (floorPrice : ℚ) : Bool :=
  truthyNum settings.maxFloorPrice && decide (floorPrice > settings.maxFloorPrice.getD 0)

/-- Result of one `handleListingEvent` call: the alert intents handed to
the notifier in order, whether `this.floorTracker.updateFloor` was reached
(the min/max floor filter `return` statements at `index.ts` lines 214 and
217 exit before it), and the resulting floors map. -/
structure HandleResult where
  alerts : List Alert
  updateFloorInvoked : Bool
  floors : CollectionFloors

/-- The tail of `handleListingEvent` from `index.ts` line 236 on:
`updateFloor`, then on an update re-read the floor and, unless
`settings.enableFloorUpdateAlerts !== false` fails, emit a floor-update
alert. -/
def finishUpdateFloor (settings : BotSettings) (floors : CollectionFloors)
    (collectionSlug : String) (collectionName : Option String)
    (e : ListingEvent) (acc : List Alert) : HandleResult :=
  let res := FloorTracker.updateFloor floors collectionSlug e
  let floorUpdated := res.1
  let floors1 := res.2
  if floorUpdated then
    match FloorTracker.getFloor floors1 collectionSlug with
    | some newFloor =>
        let alerts :=
          if settings.enableFloorUpdateAlerts ≠ some false then
            acc ++ [Alert.floorUpdate collectionSlug collectionName
                      newFloor.price newFloor.tokenSymbol]
          else acc
        { alerts := alerts, updateFloorInvoked := true, floors := floors1 }
    | none => { alerts := acc, updateFloorInvoked := true, floors := floors1 }
  else
    { alerts := acc, updateFloorInvoked := true, floors := floors1 }

/-- `OpenSeaFloorMonitor.handleListingEvent` (`index.ts` lines 153-265),
restricted to its decision content: the price-trigger section, the legacy
undercut section with the min/max floor-price filter early returns, and
the floor update with its floor-update alert.  `threshold` is
`this.config.undercutThresholdPercent`.  Console logging and web-UI event
feeds are omitted; the alert list collects the notifier calls. -/
def handleListingEvent (threshold : ℚ) (settings : BotSettings)
    (floors : CollectionFloors) (e : ListingEvent) : HandleResult :=
  let collectionSlug := e.payload.collectionSlug
  let collectionName := e.payload.collectionName
  let acc := priceTriggerAlerts settings e
  if !settings.enablePriceTriggerAlerts then
    let undercutResult := FloorTracker.isUndercut floors collectionSlug e threshold
    if undercutResult.isUndercut then
      if minFilterBlocks settings undercutResult.floorPrice then
        { alerts := acc, updateFloorInvoked := false, floors := floors }
      else if maxFilterBlocks settings undercutResult.floorPrice then
        { alerts := acc, updateFloorInvoked := false, floors := floors }
      else
        finishUpdateFloor settings floors collectionSlug collectionName e
          (acc ++ [Alert.undercut undercutResult.listingPrice
                     undercutResult.floorPrice undercutResult.percentBelow])
    else
      finishUpdateFloor settings floors collectionSlug collectionName e acc
  else
    finishUpdateFloor settings floors collectionSlug collectionName e acc

/-! ## The notification dispatcher (`Notifier`, `floorTracker.ts` lines 72-260)

`makeHttpsRequest` resolves on a 2xx status and rejects (with `HTTP <code>`
or the transport error) otherwise.  The `async` send methods `await` the
Discord send and then the Telegram send with no `try`/`catch`, so a
rejection short-circuits the method and propagates to the caller.  The
network is a parameter: one `HttpOutcome` per outbound request. -/

/-- `NotificationConfig` (`types.ts`): all channels optional. -/
structure NotificationConfig where
  discordWebhook : Option String
  telegramBotToken : Option String
  telegramChatId : Option String
deriving DecidableEq, Repr

/-- JS truthiness of an optional string: `undefined` and `""` are falsy. -/
def truthyStr (o : Option String) : Bool :=
  match o with
  | none => false
  | some s => s != ""

/-- The three delivery channels of the dispatcher. -/
inductive Channel where
  | console
  | discord
  | telegram
deriving DecidableEq, Repr

/-- Outcome of one outbound HTTP request: a 2xx response, or a rejection
(non-2xx status or transport error), carrying the error message. -/
inductive HttpOutcome where
  | success
  | failure (msg : String)
deriving DecidableEq, Repr

/-- `Notifier.makeHttpsRequest` (`floorTracker.ts` lines 220-259) as seen
by its awaiter: resolves exactly on 2xx, otherwise rejects with an error. -/
def makeHttpsRequest (outcome : HttpOutcome) : Except String Unit :=
  match outcome with
  | .success => .ok ()
  | .failure msg => .error msg

/-- Guard `if (this.config.discordWebhook)` (`floorTracker.ts` line 98). -/
def discordEnabled (config : NotificationConfig) : Bool :=
  truthyStr config.discordWebhook

/-- Guard `if (this.config.telegramBotToken && this.config.telegramChatId)`
(`floorTracker.ts` line 103). -/
def telegramEnabled (config : NotificationConfig) : Bool :=
  truthyStr config.telegramBotToken && truthyStr config.telegramChatId

/-- The shared body of `sendUndercutAlert` and `sendPriceTriggerAlert`
(`floorTracker.ts` lines 94-105 and 128-139): console synchronously, then
`await sendDiscordNotification` when the webhook is configured, then
`await sendTelegramNotification` when token and chat id are configured.
Each `await` of a rejecting request aborts the method with that error, so
a Discord rejection skips the Telegram attempt.  Returns the channels on
which a send was attempted, in order, and the method's outcome. -/
def dispatchToChannels (config : NotificationConfig)
    (discordOutcome telegramOutcome : HttpOutcome) :
    List Channel × Except String Unit :=
  let consoleAttempt := [Channel.console]
  if discordEnabled config then
    match makeHttpsRequest discordOutcome with
    | .error e => (consoleAttempt ++ [Channel.discord], .error e)
    | .ok _ =>
        if telegramEnabled config then
          (consoleAttempt ++ [Channel.discord, Channel.telegram],
            makeHttpsRequest telegramOutcome)
        else
          (consoleAttempt ++ [Channel.discord], .ok ())
  else
    if telegramEnabled config then
      (consoleAttempt ++ [Channel.telegram], makeHttpsRequest telegramOutcome)
    else
      (consoleAttempt, .ok ())

/-- `Notifier.sendUndercutAlert` (`floorTracker.ts` lines 75-106): format
the message, then dispatch through console, Discord, Telegram as above. -/
def sendUndercutAlert (config : NotificationConfig)
    (discordOutcome telegramOutcome : HttpOutcome) :
    List Channel × Except String Unit :=
  dispatchToChannels config discordOutcome telegramOutcome

/-- `Notifier.sendPriceTriggerAlert` (`floorTracker.ts` lines 108-140):
identical channel structure to `sendUndercutAlert`. -/
def sendPriceTriggerAlert (config : NotificationConfig)
    (discordOutcome telegramOutcome : HttpOutcome) :
    List Channel × Except String Unit :=
  dispatchToChannels config discordOutcome telegramOutcome

/-- `Notifier.sendFloorUpdateAlert` (`floorTracker.ts` lines 142-151): it
only calls `sendConsoleNotification`; no Discord or Telegram send exists
in its body, whatever the configuration. -/
def sendFloorUpdateAlert (config : NotificationConfig) :
    List Channel × Except String Unit :=
  let _ := config
  ([Channel.console], .ok ())

/-! ## Reference-semantics model of the floors object for `getAllFloors`

`getAllFloors` returns `{ ...this.floors }` (`floorTracker.ts` line 62):
the spread builds a NEW top-level object whose values are the SAME
`FloorData` object references held by `this.floors`.  To reason about what
a caller's field mutation does, the heap of record objects is explicit: a
reference is an index into the heap, the tracker state maps slugs to
references, and `updateFloor` allocates a fresh record object on update
(`this.floors[collectionSlug] = { ... }`). -/

/-- The heap of `FloorData` objects; a reference is an index. -/
structure JsHeap where
  recs : List FloorData
deriving DecidableEq, Repr

/-- Dereference a record object. -/
def JsHeap.read (h : JsHeap) (ref : Nat) : Option FloorData :=
  h.recs.get? ref

/-- Allocate a fresh record object, returning its reference. -/
def JsHeap.alloc (h : JsHeap) (r : FloorData) : JsHeap × Nat :=
  (⟨h.recs ++ [r]⟩, h.recs.length)

/-- Write the `price` field of the record object at the given index. -/
def setPriceAt : List FloorData → Nat → ℚ → List FloorData
  | [], _, _ => []
  | r :: rest, 0, p => { r with price := p } :: rest
  | r :: rest, n + 1, p => r :: setPriceAt rest n p

/-- The caller mutation `record.price = p` performed through a reference
obtained from the snapshot: an in-place field write on the shared object. -/
def JsHeap.writePrice (h : JsHeap) (ref : Nat) (p : ℚ) : JsHeap :=
  ⟨setPriceAt h.recs ref p⟩

/-- The `FloorTracker.floors` object in reference semantics: slug to
record reference. -/
structure JsTracker where
  floors : List (String × Nat)
deriving DecidableEq, Repr

/-- Property access `this.floors[collectionSlug]` on the slug map. -/
def lookupRef (l : List (String × Nat)) (slug : String) : Option Nat :=
  (l.find? fun kv => kv.1 = slug).map Prod.snd

/-- Replace the binding for `slug` (property assignment on the map). -/
def bindRef : List (String × Nat) → String → Nat → List (String × Nat)
  | [], slug, ref => [(slug, ref)]
  | kv :: rest, slug, ref =>
      if kv.1 = slug then (slug, ref) :: rest else kv :: bindRef rest slug ref

/-- `FloorTracker.getFloor` under reference semantics: look up the
reference, then dereference it on the current heap. -/
def jsGetFloor (h : JsHeap) (t : JsTracker) (slug : String) : Option FloorData :=
  (lookupRef t.floors slug).bind h.read

/-- `FloorTracker.updateFloor` under reference semantics: on an update it
allocates a fresh record object and rebinds the slug to it
(`floorTracker.ts` lines 14-22). -/
def jsUpdateFloor (h : JsHeap) (t : JsTracker) (slug : String)
    (e : ListingEvent) : Bool × JsHeap × JsTracker :=
  let priceInEth := normalizedPrice e
  match jsGetFloor h t slug with
  | none =>
      let ar := h.alloc (newFloorRecord e)
      (true, ar.1, ⟨bindRef t.floors slug ar.2⟩)
  | some currentFloor =>
      if priceInEth < currentFloor.price then
        let ar := h.alloc (newFloorRecord e)
        (true, ar.1, ⟨bindRef t.floors slug ar.2⟩)
      else
        (false, h, t)

/-- `FloorTracker.getAllFloors` under reference semantics:
`return { ...this.floors }` copies the top-level slug map into a new
object while keeping the same record references as values. -/
def jsGetAllFloors (t : JsTracker) : List (String × Nat) :=
  t.floors

/-! ## Concrete sample inputs used by witnesses and counterexamples -/

/-- A concrete payment token (decimals 0 keeps witness arithmetic small). -/
def tokenE : PaymentToken :=
  { symbol := "ETH", decimals := 0, usd_price := some 2000 }

/-- A concrete listing event on collection `"c"` with the given parsed
base price. -/
def evAt (q : ℚ) : ListingEvent :=
  ⟨{ base_price := q
     payment_token := tokenE
     event_timestamp := 1
     collectionSlug := "c"
     collectionName := some "Coll" }⟩

/-- A floors map holding one record for `"c"` at price 1, built through
`updateFloor` itself. -/
def floors1 : CollectionFloors :=
  (FloorTracker.updateFloor emptyFloors "c" (evAt 1)).2

/-- A concrete notifier configuration with all channels configured. -/
def sampleConfig : NotificationConfig :=
  { discordWebhook := some "https://discord.test/webhook"
    telegramBotToken := some "bot-token"
    telegramChatId := some "chat-1" }

/-- Concrete settings: price triggers disabled, a positive
`minFloorPrice` of 2, no other bounds. -/
def settingsMinTwo : BotSettings :=
  { enablePriceTriggerAlerts := false
    priceAlertMin := none
    priceAlertMax := none
    minFloorPrice := some 2
    maxFloorPrice := none
    enableFloorUpdateAlerts := none }

/-- Concrete settings: price triggers enabled with
`priceAlertMin = 1/2` and `priceAlertMax = 1/4` (so a price in between
crosses both bounds). -/
def settingsPT : BotSettings :=
  { enablePriceTriggerAlerts := true
    priceAlertMin := some (1/2)
    priceAlertMax := some (1/4)
    minFloorPrice := none
    maxFloorPrice := none
    enableFloorUpdateAlerts := none }

/-- Concrete settings: price triggers disabled and both floor-price
filters configured as exactly 0. -/
def settingsZeroBounds : BotSettings :=
  { enablePriceTriggerAlerts := false
    priceAlertMin := none
    priceAlertMax := none
    minFloorPrice := some 0
    maxFloorPrice := some 0
    enableFloorUpdateAlerts := none }

/-! ## Lemmas about `FloorTracker.updateFloor` and event folds -/

namespace FloorTracker

theorem updateFloor_apply_self (floors : CollectionFloors) (slug : String)
    (e : ListingEvent) :
    (updateFloor floors slug e).2 slug =
      match floors slug with
      | none => some (newFloorRecord e)
      | some r => if normalizedPrice e < r.price then some (newFloorRecord e) else some r := by
  unfold updateFloor
  cases h : floors slug with
  | none => simp
  | some r =>
      by_cases hlt : normalizedPrice e < r.price
      · simp [hlt]
      · simp [hlt, h]

theorem updateFloor_apply_other (floors : CollectionFloors) (slug : String)
    (e : ListingEvent) (c : String) (hc : c ≠ slug) :
    (updateFloor floors slug e).2 c = floors c := by
  unfold updateFloor
  cases h : floors slug with
  | none => simp [hc]
  | some r =>
      by_cases hlt : normalizedPrice e < r.price
      · simp [hlt, hc]
      · simp [hlt]

/-- One `updateFloor` step leaves a record at the slug whose price is at
most the event's normalized price and at most any previously stored price,
and which is either the freshly built record or the old one. -/
theorem updateFloor_step_bound (floors : CollectionFloors) (slug : String)
    (e : ListingEvent) :
    ∃ rm, (updateFloor floors slug e).2 slug = some rm ∧
      rm.price ≤ normalizedPrice e ∧
      (∀ r, floors slug = some r → rm.price ≤ r.price) ∧
      (rm = newFloorRecord e ∨ floors slug = some rm) := by
  cases h : floors slug with
  | none =>
      refine ⟨newFloorRecord e, ?_, le_refl _, ?_, Or.inl rfl⟩
      · rw [updateFloor_apply_self, h]
      · intro r hr; simp at hr
  | some r =>
      by_cases hlt : normalizedPrice e < r.price
      · refine ⟨newFloorRecord e, ?_, le_refl _, ?_, Or.inl rfl⟩
        · rw [updateFloor_apply_self, h]; simp [hlt]
        · intro r0 hr0
          injection hr0 with h0
          rw [← h0]
          exact le_of_lt hlt
      · refine ⟨r, ?_, le_of_not_lt hlt, ?_, Or.inr rfl⟩
        · rw [updateFloor_apply_self, h]; simp [hlt]
        · intro r0 hr0
          injection hr0 with h0
          rw [h0]

theorem updateFloor_eq_none (floors : CollectionFloors) (slug : String)
    (e : ListingEvent) (h : floors slug = none) :
    updateFloor floors slug e =
      (true, fun c => if c = slug then some (newFloorRecord e) else floors c) := by
  unfold updateFloor
  rw [h]

theorem updateFloor_eq_lt (floors : CollectionFloors) (slug : String)
    (e : ListingEvent) (r : FloorData) (h : floors slug = some r)
    (hlt : normalizedPrice e < r.price) :
    updateFloor floors slug e =
      (true, fun c => if c = slug then some (newFloorRecord e) else floors c) := by
  unfold updateFloor
  rw [h]
  simp [hlt]

theorem updateFloor_eq_ge (floors : CollectionFloors) (slug : String)
    (e : ListingEvent) (r : FloorData) (h : floors slug = some r)
    (hlt : ¬ normalizedPrice e < r.price) :
    updateFloor floors slug e = (false, floors) := by
  unfold updateFloor
  rw [h]
  simp [hlt]

theorem applyEvents_nil (floors : CollectionFloors) (slug : String) :
    applyEvents floors slug [] = floors := rfl

theorem applyEvents_cons (floors : CollectionFloors) (slug : String)
    (e : ListingEvent) (es : List ListingEvent) :
    applyEvents floors slug (e :: es) =
      applyEvents ((updateFloor floors slug e).2) slug es := rfl

theorem applyEvents_append (floors : CollectionFloors) (slug : String)
    (es1 es2 : List ListingEvent) :
    applyEvents floors slug (es1 ++ es2) =
      applyEvents (applyEvents floors slug es1) slug es2 := by
  simp [applyEvents, List.foldl_append]

/-- After folding any event list, the record at the slug (when present) is
bounded above by every folded price and by any initial record's price, and
its price is one of the folded prices unless the initial record survived
unchanged. -/
theorem applyEvents_min (slug : String) (es : List ListingEvent) :
    ∀ (floors : CollectionFloors) (r2 : FloorData),
      (applyEvents floors slug es) slug = some r2 →
      (r2.price ∈ es.map normalizedPrice ∨ floors slug = some r2) ∧
      (∀ p ∈ es.map normalizedPrice, r2.price ≤ p) ∧
      (∀ r, floors slug = some r → r2.price ≤ r.price) := by
  induction es with
  | nil =>
      intro floors r2 h
      rw [applyEvents_nil] at h
      refine ⟨Or.inr h, ?_, ?_⟩
      · intro p hp; simp at hp
      · intro r hr
        rw [h] at hr
        injection hr with h0
        rw [h0]
  | cons e es ih =>
      intro floors r2 h
      rw [applyEvents_cons] at h
      obtain ⟨rm, hm1, hm2, hm3, hm4⟩ := updateFloor_step_bound floors slug e
      obtain ⟨ih1, ih2, ih3⟩ := ih _ _ h
      have hle : r2.price ≤ rm.price := ih3 rm hm1
      refine ⟨?_, ?_, ?_⟩
      · rcases ih1 with hmem | heq
        · left; simp only [List.map_cons, List.mem_cons]; exact Or.inr hmem
        · rw [hm1] at heq
          injection heq with h0
          rcases hm4 with h4 | h4
          · left
            simp only [List.map_cons, List.mem_cons]
            left
            rw [← h0, h4]
            rfl
          · right
            rw [h4, h0]
      · intro p hp
        simp only [List.map_cons, List.mem_cons] at hp
        rcases hp with hp | hp
        · rw [hp]; exact le_trans hle hm2
        · exact ih2 p hp
      · intro r hr
        exact le_trans hle (hm3 r hr)

/-- Folding over a slug that already has a record keeps a record there. -/
theorem applyEvents_isSome (slug : String) (es : List ListingEvent) :
    ∀ (floors : CollectionFloors) (r : FloorData), floors slug = some r →
      ∃ r2, (applyEvents floors slug es) slug = some r2 := by
  induction es with
  | nil =>
      intro floors r h
      exact ⟨r, h⟩
  | cons e es ih =>
      intro floors r h
      obtain ⟨rm, hm1, _, _, _⟩ := updateFloor_step_bound floors slug e
      rw [applyEvents_cons]
      exact ih _ rm hm1

end FloorTracker

/-! ## Lemmas about `handleListingEvent` -/

theorem priceTriggerAlerts_disabled (settings : BotSettings) (e : ListingEvent)
    (hE : settings.enablePriceTriggerAlerts = false) :
    priceTriggerAlerts settings e = [] := by
  unfold priceTriggerAlerts
  rw [hE]
  simp

theorem priceTriggerAlerts_mem (settings : BotSettings) (e : ListingEvent)
    (a : Alert) (ha : a ∈ priceTriggerAlerts settings e) :
    a.isPriceTriggerAlert = true := by
  unfold priceTriggerAlerts at ha
  by_cases hE : settings.enablePriceTriggerAlerts
  · rw [if_pos hE] at ha
    by_cases hs : (priceTriggerCheck settings (normalizedPrice e)).1
    · rw [if_pos hs] at ha
      rcases List.mem_singleton.mp ha with h0
      rw [h0]
      rfl
    · rw [if_neg hs] at ha
      cases ha
  · rw [if_neg hE] at ha
    cases ha

theorem finishUpdateFloor_alerts_cases (settings : BotSettings)
    (floors : CollectionFloors) (slug : String) (name : Option String)
    (e : ListingEvent) (acc : List Alert) :
    (finishUpdateFloor settings floors slug name e acc).alerts = acc ∨
    ∃ pr sym, (finishUpdateFloor settings floors slug name e acc).alerts =
      acc ++ [Alert.floorUpdate slug name pr sym] := by
  unfold finishUpdateFloor
  cases hb : (FloorTracker.updateFloor floors slug e).1 with
  | false => simp [hb]
  | true =>
      cases hg : FloorTracker.getFloor (FloorTracker.updateFloor floors slug e).2 slug with
      | none => simp [hb, hg]
      | some nf =>
          by_cases he : settings.enableFloorUpdateAlerts ≠ some false
          · simp only [hb, hg]
            rw [if_pos he]
            right
            exact ⟨nf.price, nf.tokenSymbol, rfl⟩
          · simp only [hb, hg]
            rw [if_neg he]
            left
            rfl

theorem finishUpdateFloor_invoked (settings : BotSettings)
    (floors : CollectionFloors) (slug : String) (name : Option String)
    (e : ListingEvent) (acc : List Alert) :
    (finishUpdateFloor settings floors slug name e acc).updateFloorInvoked = true := by
  unfold finishUpdateFloor
  cases hb : (FloorTracker.updateFloor floors slug e).1 with
  | false => simp [hb]
  | true =>
      cases hg : FloorTracker.getFloor (FloorTracker.updateFloor floors slug e).2 slug with
      | none => simp [hb, hg]
      | some nf =>
          by_cases he : settings.enableFloorUpdateAlerts ≠ some false
          · simp [hb, hg, he]
          · simp [hb, hg, he]

/-- When the update goes through and floor-update alerts are not
explicitly disabled, `finishUpdateFloor` appends a floor-update alert
carrying the freshly stored record's price and token symbol. -/
theorem finishUpdateFloor_floorUpdate_alert (settings : BotSettings)
    (floors : CollectionFloors) (slug : String) (name : Option String)
    (e : ListingEvent) (acc : List Alert)
    (hb : (FloorTracker.updateFloor floors slug e).1 = true)
    (he : settings.enableFloorUpdateAlerts ≠ some false) :
    (finishUpdateFloor settings floors slug name e acc).alerts =
      acc ++ [Alert.floorUpdate slug name (newFloorRecord e).price
        (newFloorRecord e).tokenSymbol] := by
  have hg : FloorTracker.getFloor (FloorTracker.updateFloor floors slug e).2 slug =
      some (newFloorRecord e) := by
    unfold FloorTracker.getFloor
    rw [FloorTracker.updateFloor_apply_self]
    cases h : floors slug with
    | none => rfl
    | some r =>
        by_cases hlt : normalizedPrice e < r.price
        · simp [hlt]
        · exfalso
          rw [FloorTracker.updateFloor_eq_ge floors slug e r h hlt] at hb
          cases hb
  unfold finishUpdateFloor
  simp only [hb, hg, if_true]
  rw [if_pos he]

/-- The handler either returns early at a floor-price filter (no
`updateFloor` call, alert list exactly the price-trigger alerts, floors
unchanged) or runs the tail `finishUpdateFloor` on an accumulator that is
the price-trigger alerts possibly followed by one undercut alert. -/
theorem handleListingEvent_cases (threshold : ℚ) (settings : BotSettings)
    (floors : CollectionFloors) (e : ListingEvent) :
    handleListingEvent threshold settings floors e =
      { alerts := priceTriggerAlerts settings e, updateFloorInvoked := false
        floors := floors } ∨
    ∃ acc, (acc = priceTriggerAlerts settings e ∨
        acc = priceTriggerAlerts settings e ++
          [Alert.undercut
            (FloorTracker.isUndercut floors e.payload.collectionSlug e threshold).listingPrice
            (FloorTracker.isUndercut floors e.payload.collectionSlug e threshold).floorPrice
            (FloorTracker.isUndercut floors e.payload.collectionSlug e threshold).percentBelow]) ∧
      handleListingEvent threshold settings floors e =
        finishUpdateFloor settings floors e.payload.collectionSlug
          e.payload.collectionName e acc := by
  unfold handleListingEvent
  by_cases hE : settings.enablePriceTriggerAlerts
  · simp only [hE, Bool.not_true]
    rw [if_neg (by simp)]
    exact Or.inr ⟨_, Or.inl rfl, rfl⟩
  · have hE2 : settings.enablePriceTriggerAlerts = false := by
      simpa using hE
    simp only [hE2, Bool.not_false]
    rw [if_pos trivial]
    by_cases hU : (FloorTracker.isUndercut floors e.payload.collectionSlug e threshold).isUndercut = true
    · rw [if_pos hU]
      by_cases hmin : minFilterBlocks settings
          (FloorTracker.isUndercut floors e.payload.collectionSlug e threshold).floorPrice = true
      · rw [if_pos hmin]
        exact Or.inl rfl
      · rw [if_neg hmin]
        by_cases hmax : maxFilterBlocks settings
            (FloorTracker.isUndercut floors e.payload.collectionSlug e threshold).floorPrice = true
        · rw [if_pos hmax]
          exact Or.inl rfl
        · rw [if_neg hmax]
          exact Or.inr ⟨_, Or.inr rfl, rfl⟩
    · rw [if_neg hU]
      exact Or.inr ⟨_, Or.inl rfl, rfl⟩

theorem handleListingEvent_pt_enabled (threshold : ℚ) (settings : BotSettings)
    (floors : CollectionFloors) (e : ListingEvent)
    (hE : settings.enablePriceTriggerAlerts = true) :
    handleListingEvent threshold settings floors e =
      finishUpdateFloor settings floors e.payload.collectionSlug
        e.payload.collectionName e (priceTriggerAlerts settings e) := by
  unfold handleListingEvent
  simp only [hE, Bool.not_true]
  rw [if_neg (by simp)]

theorem handleListingEvent_noUndercut (threshold : ℚ) (settings : BotSettings)
    (floors : CollectionFloors) (e : ListingEvent)
    (hE : settings.enablePriceTriggerAlerts = false)
    (hU : (FloorTracker.isUndercut floors e.payload.collectionSlug e threshold).isUndercut = false) :
    handleListingEvent threshold settings floors e =
      finishUpdateFloor settings floors e.payload.collectionSlug
        e.payload.collectionName e (priceTriggerAlerts settings e) := by
  unfold handleListingEvent
  simp only [hE, Bool.not_false]
  rw [if_pos trivial, if_neg (by simp [hU])]

theorem handleListingEvent_blocked (threshold : ℚ) (settings : BotSettings)
    (floors : CollectionFloors) (e : ListingEvent)
    (hE : settings.enablePriceTriggerAlerts = false)
    (hU : (FloorTracker.isUndercut floors e.payload.collectionSlug e threshold).isUndercut = true)
    (hblock : minFilterBlocks settings
        (FloorTracker.isUndercut floors e.payload.collectionSlug e threshold).floorPrice = true ∨
      maxFilterBlocks settings
        (FloorTracker.isUndercut floors e.payload.collectionSlug e threshold).floorPrice = true) :
    handleListingEvent threshold settings floors e =
      { alerts := priceTriggerAlerts settings e, updateFloorInvoked := false
        floors := floors } := by
  unfold handleListingEvent
  simp only [hE, Bool.not_false]
  rw [if_pos trivial, if_pos hU]
  by_cases hmin : minFilterBlocks settings
      (FloorTracker.isUndercut floors e.payload.collectionSlug e threshold).floorPrice = true
  · rw [if_pos hmin]
  · rw [if_neg hmin]
    rcases hblock with h | h
    · exact absurd h hmin
    · rw [if_pos h]

theorem handleListingEvent_undercut_path (threshold : ℚ) (settings : BotSettings)
    (floors : CollectionFloors) (e : ListingEvent)
    (hE : settings.enablePriceTriggerAlerts = false)
    (hU : (FloorTracker.isUndercut floors e.payload.collectionSlug e threshold).isUndercut = true)
    (hmin : minFilterBlocks settings
        (FloorTracker.isUndercut floors e.payload.collectionSlug e threshold).floorPrice = false)
    (hmax : maxFilterBlocks settings
        (FloorTracker.isUndercut floors e.payload.collectionSlug e threshold).floorPrice = false) :
    handleListingEvent threshold settings floors e =
      finishUpdateFloor settings floors e.payload.collectionSlug
        e.payload.collectionName e
        (priceTriggerAlerts settings e ++
          [Alert.undercut
            (FloorTracker.isUndercut floors e.payload.collectionSlug e threshold).listingPrice
            (FloorTracker.isUndercut floors e.payload.collectionSlug e threshold).floorPrice
            (FloorTracker.isUndercut floors e.payload.collectionSlug e threshold).percentBelow]) := by
  unfold handleListingEvent
  simp only [hE, Bool.not_false]
  rw [if_pos trivial, if_pos hU, if_neg (by simp [hmin]), if_neg (by simp [hmax])]

theorem filter_pt_floorUpdate (acc : List Alert) (slug : String)
    (name : Option String) (pr : ℚ) (sym : String) :
    (acc ++ [Alert.floorUpdate slug name pr sym]).filter Alert.isPriceTriggerAlert =
      acc.filter Alert.isPriceTriggerAlert := by
  rw [List.filter_append]
  simp [List.filter, Alert.isPriceTriggerAlert]

theorem filter_undercut_floorUpdate (acc : List Alert) (slug : String)
    (name : Option String) (pr : ℚ) (sym : String) :
    (acc ++ [Alert.floorUpdate slug name pr sym]).filter Alert.isUndercutAlert =
      acc.filter Alert.isUndercutAlert := by
  rw [List.filter_append]
  simp [List.filter, Alert.isUndercutAlert]

/-- With price triggers enabled, the price-trigger alerts of the handler
result are exactly the section's own output (floor-update alerts do not
pollute the filter). -/
theorem handleListingEvent_filter_pt (threshold : ℚ) (settings : BotSettings)
    (floors : CollectionFloors) (e : ListingEvent)
    (hE : settings.enablePriceTriggerAlerts = true) :
    (handleListingEvent threshold settings floors e).alerts.filter Alert.isPriceTriggerAlert =
      priceTriggerAlerts settings e := by
  rw [handleListingEvent_pt_enabled threshold settings floors e hE]
  have hself : (priceTriggerAlerts settings e).filter Alert.isPriceTriggerAlert =
      priceTriggerAlerts settings e :=
    List.filter_eq_self.mpr (fun a ha => priceTriggerAlerts_mem settings e a ha)
  rcases finishUpdateFloor_alerts_cases settings floors e.payload.collectionSlug
      e.payload.collectionName e (priceTriggerAlerts settings e) with h | ⟨pr, sym, h⟩
  · rw [h, hself]
  · rw [h, filter_pt_floorUpdate, hself]

theorem priceTriggerCheck_below (settings : BotSettings) (p m : ℚ)
    (hmin : settings.priceAlertMin = some m) (hlt : p < m)
    (hmax : settings.priceAlertMax = none ∨
      ∃ M, settings.priceAlertMax = some M ∧ ¬ p > M) :
    priceTriggerCheck settings p = (true, belowReason m) := by
  unfold priceTriggerCheck
  rw [hmin]
  rcases hmax with h | ⟨M, hM, hgt⟩
  · rw [h]
    simp [hlt]
  · rw [hM]
    simp [hlt, hgt]

theorem priceTriggerCheck_above (settings : BotSettings) (p M : ℚ)
    (hmax : settings.priceAlertMax = some M) (hgt : p > M) :
    priceTriggerCheck settings p = (true, aboveReason M) := by
  unfold priceTriggerCheck
  rw [hmax]
  simp [hgt]

theorem priceTriggerAlerts_eq (settings : BotSettings) (e : ListingEvent)
    (rs : String) (hE : settings.enablePriceTriggerAlerts = true)
    (hs : priceTriggerCheck settings (normalizedPrice e) = (true, rs)) :
    priceTriggerAlerts settings e =
      [Alert.priceTrigger (normalizedPrice e) e.payload.payment_token.symbol rs] := by
  unfold priceTriggerAlerts
  rw [hE]
  simp [hs]

/-! ## Claim theorems -/

/-- C4: for every collection and event, `updateFloor` returns true and
replaces that collection's record with the event's normalized price, USD
value, timestamp and token symbol (the fields of `newFloorRecord`) exactly
when no record exists or the event's normalized price is strictly lower
than the stored price; otherwise it returns false and leaves the store
unchanged at every collection. -/
theorem c4_updateFloor_contract (floors : CollectionFloors) (slug : String)
    (e : ListingEvent) :
    ((FloorTracker.updateFloor floors slug e).1 = true ↔
      floors slug = none ∨ ∃ r, floors slug = some r ∧ normalizedPrice e < r.price) ∧
    ((FloorTracker.updateFloor floors slug e).1 = true →
      (FloorTracker.updateFloor floors slug e).2 slug = some (newFloorRecord e) ∧
      ∀ c, c ≠ slug → (FloorTracker.updateFloor floors slug e).2 c = floors c) ∧
    ((FloorTracker.updateFloor floors slug e).1 = false →
      ∀ c, (FloorTracker.updateFloor floors slug e).2 c = floors c) := by
  cases h : floors slug with
  | none =>
      rw [FloorTracker.updateFloor_eq_none floors slug e h]
      refine ⟨⟨fun _ => Or.inl rfl, fun _ => rfl⟩, ?_, ?_⟩
      · intro _
        constructor
        · simp
        · intro c hc; simp [hc]
      · intro hfalse; cases hfalse
  | some r =>
      by_cases hlt : normalizedPrice e < r.price
      · rw [FloorTracker.updateFloor_eq_lt floors slug e r h hlt]
        refine ⟨⟨fun _ => Or.inr ⟨r, rfl, hlt⟩, fun _ => rfl⟩, ?_, ?_⟩
        · intro _
          constructor
          · simp
          · intro c hc; simp [hc]
        · intro hfalse; cases hfalse
      · rw [FloorTracker.updateFloor_eq_ge floors slug e r h hlt]
        refine ⟨⟨?_, ?_⟩, ?_, ?_⟩
        · intro htrue; cases htrue
        · intro hd
          rcases hd with hd | ⟨r0, hr0, hlt0⟩
          · cases hd
          · injection hr0 with h0
            rw [← h0] at hlt0
            exact absurd hlt0 hlt
        · intro htrue; cases htrue
        · intro _ c; rfl

/-- Witness for C4 at a concrete input: on an empty store, `updateFloor`
returns true and stores the freshly built record. -/
theorem c4_updateFloor_contract_witness :
    (FloorTracker.updateFloor emptyFloors "c" (evAt 1)).1 = true ∧
    (FloorTracker.updateFloor emptyFloors "c" (evAt 1)).2 "c" = some (newFloorRecord (evAt 1)) := by
  have hc := c4_updateFloor_contract emptyFloors "c" (evAt 1)
  have h1 : (FloorTracker.updateFloor emptyFloors "c" (evAt 1)).1 = true :=
    hc.1.mpr (Or.inl rfl)
  exact ⟨h1, (hc.2.1 h1).1⟩

/-- C5: with a stored record, `isUndercut` reports
`percentBelow = (floor.price - listingPrice) / floor.price * 100`, reports
the stored floor price, and flags an undercut exactly when `percentBelow`
is at least the threshold (equality included); with no record it returns
the all-zero non-undercut verdict whatever the listing price. -/
theorem c5_isUndercut_contract (floors : CollectionFloors) (slug : String)
    (e : ListingEvent) (th : ℚ) :
    (∀ r, floors slug = some r →
      (FloorTracker.isUndercut floors slug e th).percentBelow =
          ((r.price - normalizedPrice e) / r.price) * 100 ∧
      (FloorTracker.isUndercut floors slug e th).floorPrice = r.price ∧
      (FloorTracker.isUndercut floors slug e th).listingPrice = normalizedPrice e ∧
      ((FloorTracker.isUndercut floors slug e th).isUndercut = true ↔
        ((r.price - normalizedPrice e) / r.price) * 100 ≥ th)) ∧
    (floors slug = none →
      FloorTracker.isUndercut floors slug e th =
        { isUndercut := false, listingPrice := normalizedPrice e
          floorPrice := 0, percentBelow := 0 }) := by
  constructor
  · intro r hr
    unfold FloorTracker.isUndercut FloorTracker.getFloor
    rw [hr]
    refine ⟨rfl, rfl, rfl, ?_⟩
    simp
  · intro hr
    unfold FloorTracker.isUndercut FloorTracker.getFloor
    rw [hr]

/-- Witness for C5 at concrete inputs: a listing at half the stored floor
of 1 gives percentBelow 50 and is flagged at threshold 50; on an empty
store the verdict is the all-zero non-undercut one. -/
theorem c5_isUndercut_contract_witness :
    (FloorTracker.isUndercut floors1 "c" (evAt (1/2)) 50).percentBelow = 50 ∧
    (FloorTracker.isUndercut floors1 "c" (evAt (1/2)) 50).isUndercut = true ∧
    FloorTracker.isUndercut emptyFloors "c" (evAt (1/2)) 50 =
      { isUndercut := false, listingPrice := normalizedPrice (evAt (1/2))
        floorPrice := 0, percentBelow := 0 } := by
  have hsome : floors1 "c" = some (newFloorRecord (evAt 1)) := by
    unfold floors1
    rw [FloorTracker.updateFloor_apply_self]
    rfl
  have hc := (c5_isUndercut_contract floors1 "c" (evAt (1/2)) 50).1
    (newFloorRecord (evAt 1)) hsome
  have hprice : (newFloorRecord (evAt 1)).price = 1 := by
    unfold newFloorRecord evAt normalizedPrice tokenE
    norm_num
  have hlp : normalizedPrice (evAt (1/2)) = 1/2 := by
    unfold evAt normalizedPrice tokenE
    norm_num
  have hpb : (FloorTracker.isUndercut floors1 "c" (evAt (1/2)) 50).percentBelow = 50 := by
    rw [hc.1, hprice, hlp]
    norm_num
  refine ⟨hpb, ?_, (c5_isUndercut_contract emptyFloors "c" (evAt (1/2)) 50).2 rfl⟩
  apply hc.2.2.2.mpr
  rw [hprice, hlp]
  norm_num

/-- C3: starting from the empty store, after folding any nonempty event
sequence for one collection the stored floor price is the minimum
normalized price seen so far; appending a further event can only lower it
(non-increasing), and the stored map changes on an appended event only
when that event's normalized price is strictly below the current floor. -/
theorem c3_floor_min (slug : String) (es : List ListingEvent) (hne : es ≠ []) :
    (∃ r2, FloorTracker.applyEvents emptyFloors slug es slug = some r2 ∧
        r2.price ∈ es.map normalizedPrice ∧
        ∀ p ∈ es.map normalizedPrice, r2.price ≤ p) ∧
    (∀ e r2 r3, FloorTracker.applyEvents emptyFloors slug es slug = some r2 →
        FloorTracker.applyEvents emptyFloors slug (es ++ [e]) slug = some r3 →
        r3.price ≤ r2.price) ∧
    (∀ e r2, FloorTracker.applyEvents emptyFloors slug es slug = some r2 →
        FloorTracker.applyEvents emptyFloors slug (es ++ [e]) ≠
          FloorTracker.applyEvents emptyFloors slug es →
        normalizedPrice e < r2.price) := by
  have hsome : ∃ r2, FloorTracker.applyEvents emptyFloors slug es slug = some r2 := by
    cases es with
    | nil => exact absurd rfl hne
    | cons e tl =>
        rw [FloorTracker.applyEvents_cons]
        obtain ⟨rm, hm1, _, _, _⟩ := FloorTracker.updateFloor_step_bound emptyFloors slug e
        exact FloorTracker.applyEvents_isSome slug tl _ rm hm1
  obtain ⟨r2, h2⟩ := hsome
  have hmin := FloorTracker.applyEvents_min slug es emptyFloors r2 h2
  refine ⟨⟨r2, h2, ?_, hmin.2.1⟩, ?_, ?_⟩
  · rcases hmin.1 with hmem | habs
    · exact hmem
    · exact absurd habs (by simp [emptyFloors])
  · intro e ra rb hra hrb
    rw [FloorTracker.applyEvents_append] at hrb
    have hrb2 : (FloorTracker.updateFloor
        (FloorTracker.applyEvents emptyFloors slug es) slug e).2 slug = some rb := hrb
    obtain ⟨rm, hm1, hm2, hm3, hm4⟩ :=
      FloorTracker.updateFloor_step_bound (FloorTracker.applyEvents emptyFloors slug es) slug e
    rw [hm1] at hrb2
    injection hrb2 with h0
    rw [← h0]
    exact hm3 ra hra
  · intro e ra hra hdiff
    by_contra hge
    have heq := FloorTracker.updateFloor_eq_ge
      (FloorTracker.applyEvents emptyFloors slug es) slug e ra hra hge
    apply hdiff
    rw [FloorTracker.applyEvents_append]
    show (FloorTracker.updateFloor (FloorTracker.applyEvents emptyFloors slug es) slug e).2 =
      FloorTracker.applyEvents emptyFloors slug es
    rw [heq]

/-- Witness for C3 at a concrete sequence: prices 1, 2, 1/2 leave a floor
record whose price is the minimum of the prices seen. -/
theorem c3_floor_min_witness :
    ∃ r2, FloorTracker.applyEvents emptyFloors "c" [evAt 1, evAt 2, evAt (1/2)] "c" = some r2 ∧
      r2.price ∈ [evAt 1, evAt 2, evAt (1/2)].map normalizedPrice ∧
      ∀ p ∈ [evAt 1, evAt 2, evAt (1/2)].map normalizedPrice, r2.price ≤ p :=
  (c3_floor_min "c" [evAt 1, evAt 2, evAt (1/2)] (List.cons_ne_nil _ _)).1

theorem normalizedPrice_evAt (q : ℚ) : normalizedPrice (evAt q) = q := by
  unfold normalizedPrice evAt tokenE
  norm_num

theorem newFloorRecord_evAt_price (q : ℚ) : (newFloorRecord (evAt q)).price = q := by
  unfold newFloorRecord
  rw [normalizedPrice_evAt]

theorem floors1_at_c : floors1 "c" = some (newFloorRecord (evAt 1)) := by
  unfold floors1
  rw [FloorTracker.updateFloor_eq_none emptyFloors "c" (evAt 1) rfl]
  simp

theorem isUndercut_floors1_half :
    FloorTracker.isUndercut floors1 "c" (evAt (1/2)) 0 =
      { isUndercut := true, listingPrice := 1/2, floorPrice := 1, percentBelow := 50 } := by
  unfold FloorTracker.isUndercut FloorTracker.getFloor
  rw [floors1_at_c]
  simp only [normalizedPrice_evAt, newFloorRecord_evAt_price]
  norm_num

theorem minFilterBlocks_settingsMinTwo_one : minFilterBlocks settingsMinTwo 1 = true := by
  simp [minFilterBlocks, truthyNum, settingsMinTwo]

/-- The handler's early return on the concrete C1 inputs. -/
theorem handle_c1_eq :
    handleListingEvent 0 settingsMinTwo floors1 (evAt (1/2)) =
      { alerts := priceTriggerAlerts settingsMinTwo (evAt (1/2))
        updateFloorInvoked := false, floors := floors1 } := by
  apply handleListingEvent_blocked
  · rfl
  · show (FloorTracker.isUndercut floors1 "c" (evAt (1/2)) 0).isUndercut = true
    rw [isUndercut_floors1_half]
  · left
    show minFilterBlocks settingsMinTwo
      (FloorTracker.isUndercut floors1 "c" (evAt (1/2)) 0).floorPrice = true
    rw [isUndercut_floors1_half]
    exact minFilterBlocks_settingsMinTwo_one

/-- C1 counterexample: at threshold 0 with a stored floor of 1 and
`minFloorPrice = 2`, a listing at 1/2 is flagged as an undercut and its
floor price of 1 falls below the configured minimum, yet the handler does
NOT invoke `updateFloor`: the floor record stays at price 1 although the
event's normalized price 1/2 is strictly lower, contradicting the claim
that `updateFloor` is still invoked for such events. -/
theorem c1_counterexample :
    (FloorTracker.isUndercut floors1 "c" (evAt (1/2)) 0).isUndercut = true ∧
    minFilterBlocks settingsMinTwo
      (FloorTracker.isUndercut floors1 "c" (evAt (1/2)) 0).floorPrice = true ∧
    normalizedPrice (evAt (1/2)) < (newFloorRecord (evAt 1)).price ∧
    (handleListingEvent 0 settingsMinTwo floors1 (evAt (1/2))).updateFloorInvoked = false ∧
    (handleListingEvent 0 settingsMinTwo floors1 (evAt (1/2))).alerts = [] ∧
    (handleListingEvent 0 settingsMinTwo floors1 (evAt (1/2))).floors "c" =
      some (newFloorRecord (evAt 1)) := by
  refine ⟨?_, ?_, ?_, ?_, ?_, ?_⟩
  · rw [isUndercut_floors1_half]
  · rw [isUndercut_floors1_half]
    exact minFilterBlocks_settingsMinTwo_one
  · rw [normalizedPrice_evAt, newFloorRecord_evAt_price]
    norm_num
  · rw [handle_c1_eq]
  · rw [handle_c1_eq]
    exact priceTriggerAlerts_disabled settingsMinTwo (evAt (1/2)) rfl
  · rw [handle_c1_eq]
    exact floors1_at_c

/-- C1 (amended): when price-trigger alerts are disabled, the undercut
verdict is flagged, and the floor price fails the configured
min/max floor filter, no alert at all is produced AND the handler returns
early: `updateFloor` is NOT invoked and the floors map is left unchanged,
even when the event's normalized price is strictly lower than the stored
floor. -/
theorem c1_filtered_undercut_skips_updateFloor (threshold : ℚ)
    (settings : BotSettings) (floors : CollectionFloors) (e : ListingEvent)
    (hE : settings.enablePriceTriggerAlerts = false)
    (hU : (FloorTracker.isUndercut floors e.payload.collectionSlug e threshold).isUndercut = true)
    (hblock : minFilterBlocks settings
        (FloorTracker.isUndercut floors e.payload.collectionSlug e threshold).floorPrice = true ∨
      maxFilterBlocks settings
        (FloorTracker.isUndercut floors e.payload.collectionSlug e threshold).floorPrice = true) :
    (handleListingEvent threshold settings floors e).alerts = [] ∧
    (handleListingEvent threshold settings floors e).updateFloorInvoked = false ∧
    (handleListingEvent threshold settings floors e).floors = floors := by
  rw [handleListingEvent_blocked threshold settings floors e hE hU hblock]
  exact ⟨priceTriggerAlerts_disabled settings e hE, rfl, rfl⟩

/-- Witness for the amended C1 at the concrete counterexample inputs. -/
theorem c1_filtered_undercut_skips_updateFloor_witness :
    (handleListingEvent 0 settingsMinTwo floors1 (evAt (1/2))).alerts = [] ∧
    (handleListingEvent 0 settingsMinTwo floors1 (evAt (1/2))).updateFloorInvoked = false ∧
    (handleListingEvent 0 settingsMinTwo floors1 (evAt (1/2))).floors = floors1 :=
  c1_filtered_undercut_skips_updateFloor 0 settingsMinTwo floors1 (evAt (1/2))
    rfl
    (show (FloorTracker.isUndercut floors1 "c" (evAt (1/2)) 0).isUndercut = true by
      rw [isUndercut_floors1_half])
    (Or.inl (show minFilterBlocks settingsMinTwo
        (FloorTracker.isUndercut floors1 "c" (evAt (1/2)) 0).floorPrice = true by
      rw [isUndercut_floors1_half]
      exact minFilterBlocks_settingsMinTwo_one))

/-- C7: the two alert families are mutually exclusive per event: with
price-trigger alerts enabled no undercut alert can appear in the handler's
output, and with them disabled no price-trigger alert can. -/
theorem c7_alert_modes_exclusive (threshold : ℚ) (settings : BotSettings)
    (floors : CollectionFloors) (e : ListingEvent) :
    (settings.enablePriceTriggerAlerts = true →
      (handleListingEvent threshold settings floors e).alerts.filter
        Alert.isUndercutAlert = []) ∧
    (settings.enablePriceTriggerAlerts = false →
      (handleListingEvent threshold settings floors e).alerts.filter
        Alert.isPriceTriggerAlert = []) := by
  constructor
  · intro hE
    rw [handleListingEvent_pt_enabled threshold settings floors e hE]
    have hacc : (priceTriggerAlerts settings e).filter Alert.isUndercutAlert = [] := by
      rw [List.filter_eq_nil_iff]
      intro a ha
      have hpt := priceTriggerAlerts_mem settings e a ha
      cases a with
      | priceTrigger lp sym rs => simp [Alert.isUndercutAlert]
      | undercut lp fp pb => simp [Alert.isPriceTriggerAlert] at hpt
      | floorUpdate s n p sym => simp [Alert.isPriceTriggerAlert] at hpt
    rcases finishUpdateFloor_alerts_cases settings floors e.payload.collectionSlug
        e.payload.collectionName e (priceTriggerAlerts settings e) with h | ⟨pr, sym, h⟩
    · rw [h, hacc]
    · rw [h, filter_undercut_floorUpdate, hacc]
  · intro hE
    have hacc : priceTriggerAlerts settings e = [] :=
      priceTriggerAlerts_disabled settings e hE
    by_cases hU : (FloorTracker.isUndercut floors e.payload.collectionSlug e threshold).isUndercut = true
    · by_cases hmin : minFilterBlocks settings
          (FloorTracker.isUndercut floors e.payload.collectionSlug e threshold).floorPrice = true
      · rw [handleListingEvent_blocked threshold settings floors e hE hU (Or.inl hmin)]
        simp [hacc]
      · by_cases hmax : maxFilterBlocks settings
            (FloorTracker.isUndercut floors e.payload.collectionSlug e threshold).floorPrice = true
        · rw [handleListingEvent_blocked threshold settings floors e hE hU (Or.inr hmax)]
          simp [hacc]
        · rw [handleListingEvent_undercut_path threshold settings floors e hE hU
            (by simpa using hmin) (by simpa using hmax)]
          rcases finishUpdateFloor_alerts_cases settings floors e.payload.collectionSlug
              e.payload.collectionName e (priceTriggerAlerts settings e ++
                [Alert.undercut
                  (FloorTracker.isUndercut floors e.payload.collectionSlug e threshold).listingPrice
                  (FloorTracker.isUndercut floors e.payload.collectionSlug e threshold).floorPrice
                  (FloorTracker.isUndercut floors e.payload.collectionSlug e threshold).percentBelow])
              with h | ⟨pr, sym, h⟩
          · rw [h, hacc]
            simp [List.filter, Alert.isPriceTriggerAlert]
          · rw [h, filter_pt_floorUpdate, hacc]
            simp [List.filter, Alert.isPriceTriggerAlert]
    · rw [handleListingEvent_noUndercut threshold settings floors e hE (by simpa using hU)]
      rcases finishUpdateFloor_alerts_cases settings floors e.payload.collectionSlug
          e.payload.collectionName e (priceTriggerAlerts settings e) with h | ⟨pr, sym, h⟩
      · rw [h, hacc]
        rfl
      · rw [h, filter_pt_floorUpdate, hacc]
        rfl

/-- Witness for C7: with price triggers enabled no undercut alert appears;
with them disabled no price-trigger alert appears. -/
theorem c7_alert_modes_exclusive_witness :
    (handleListingEvent 0 settingsPT emptyFloors (evAt (1/3))).alerts.filter
      Alert.isUndercutAlert = [] ∧
    (handleListingEvent 0 settingsMinTwo floors1 (evAt 3)).alerts.filter
      Alert.isPriceTriggerAlert = [] :=
  ⟨(c7_alert_modes_exclusive 0 settingsPT emptyFloors (evAt (1/3))).1 rfl,
   (c7_alert_modes_exclusive 0 settingsMinTwo floors1 (evAt 3)).2 rfl⟩

/-- C6: with price-trigger alerts enabled, crossing only the min bound
yields exactly one price-trigger alert whose reason names the min bound;
crossing the max bound yields exactly one alert whose reason names the
max bound — in particular when both bounds are configured and both are
crossed, the single alert's reason is the max-bound one (the max check is
evaluated second and overwrites the min reason). -/
theorem c6_price_trigger_reason (threshold : ℚ) (settings : BotSettings)
    (floors : CollectionFloors) (e : ListingEvent)
    (hE : settings.enablePriceTriggerAlerts = true) :
    (∀ m, settings.priceAlertMin = some m → normalizedPrice e < m →
      (settings.priceAlertMax = none ∨
        ∃ M, settings.priceAlertMax = some M ∧ ¬ normalizedPrice e > M) →
      (handleListingEvent threshold settings floors e).alerts.filter
          Alert.isPriceTriggerAlert =
        [Alert.priceTrigger (normalizedPrice e) e.payload.payment_token.symbol
          (belowReason m)]) ∧
    (∀ M, settings.priceAlertMax = some M → normalizedPrice e > M →
      (handleListingEvent threshold settings floors e).alerts.filter
          Alert.isPriceTriggerAlert =
        [Alert.priceTrigger (normalizedPrice e) e.payload.payment_token.symbol
          (aboveReason M)]) ∧
    (∀ m M, settings.priceAlertMin = some m → settings.priceAlertMax = some M →
      normalizedPrice e < m → normalizedPrice e > M →
      (handleListingEvent threshold settings floors e).alerts.filter
          Alert.isPriceTriggerAlert =
        [Alert.priceTrigger (normalizedPrice e) e.payload.payment_token.symbol
          (aboveReason M)]) := by
  refine ⟨?_, ?_, ?_⟩
  · intro m hmin hlt hmax
    rw [handleListingEvent_filter_pt threshold settings floors e hE,
      priceTriggerAlerts_eq settings e (belowReason m) hE
        (priceTriggerCheck_below settings (normalizedPrice e) m hmin hlt hmax)]
  · intro M hmax hgt
    rw [handleListingEvent_filter_pt threshold settings floors e hE,
      priceTriggerAlerts_eq settings e (aboveReason M) hE
        (priceTriggerCheck_above settings (normalizedPrice e) M hmax hgt)]
  · intro m M hmin hmax hlt hgt
    rw [handleListingEvent_filter_pt threshold settings floors e hE,
      priceTriggerAlerts_eq settings e (aboveReason M) hE
        (priceTriggerCheck_above settings (normalizedPrice e) M hmax hgt)]

/-- Witness for C6 at a listing price of 1/3 with min bound 1/2 and max
bound 1/4: both bounds are crossed and the single alert carries the
max-bound reason. -/
theorem c6_price_trigger_reason_witness :
    (handleListingEvent 0 settingsPT emptyFloors (evAt (1/3))).alerts.filter
        Alert.isPriceTriggerAlert =
      [Alert.priceTrigger (normalizedPrice (evAt (1/3)))
        (evAt (1/3)).payload.payment_token.symbol (aboveReason (1/4))] :=
  (c6_price_trigger_reason 0 settingsPT emptyFloors (evAt (1/3)) rfl).2.2
    (1/2) (1/4) rfl rfl
    (by rw [normalizedPrice_evAt]; norm_num)
    (by rw [normalizedPrice_evAt]; norm_num)

/-- C10: a floor-price filter bound configured as exactly 0 is falsy in
the guard and never suppresses a flagged undercut alert (with both
filters absent-or-zero the undercut alert is produced), whereas any
positive bound is enforced: a positive min above the floor price, or a
positive max below it, suppresses the undercut alert. -/
theorem c10_zero_bound_filter (threshold : ℚ) (settings : BotSettings)
    (floors : CollectionFloors) (e : ListingEvent)
    (hE : settings.enablePriceTriggerAlerts = false)
    (hU : (FloorTracker.isUndercut floors e.payload.collectionSlug e threshold).isUndercut = true) :
    ((settings.minFloorPrice = none ∨ settings.minFloorPrice = some 0) →
      (settings.maxFloorPrice = none ∨ settings.maxFloorPrice = some 0) →
      Alert.undercut
        (FloorTracker.isUndercut floors e.payload.collectionSlug e threshold).listingPrice
        (FloorTracker.isUndercut floors e.payload.collectionSlug e threshold).floorPrice
        (FloorTracker.isUndercut floors e.payload.collectionSlug e threshold).percentBelow ∈
        (handleListingEvent threshold settings floors e).alerts) ∧
    (∀ m, settings.minFloorPrice = some m → 0 < m →
      (FloorTracker.isUndercut floors e.payload.collectionSlug e threshold).floorPrice < m →
      (handleListingEvent threshold settings floors e).alerts.filter
        Alert.isUndercutAlert = []) ∧
    (∀ M, settings.maxFloorPrice = some M → 0 < M →
      (FloorTracker.isUndercut floors e.payload.collectionSlug e threshold).floorPrice > M →
      (handleListingEvent threshold settings floors e).alerts.filter
        Alert.isUndercutAlert = []) := by
  refine ⟨?_, ?_, ?_⟩
  · intro hmin0 hmax0
    have hminF : minFilterBlocks settings
        (FloorTracker.isUndercut floors e.payload.collectionSlug e threshold).floorPrice = false := by
      unfold minFilterBlocks truthyNum
      rcases hmin0 with h | h <;> rw [h] <;> simp
    have hmaxF : maxFilterBlocks settings
        (FloorTracker.isUndercut floors e.payload.collectionSlug e threshold).floorPrice = false := by
      unfold maxFilterBlocks truthyNum
      rcases hmax0 with h | h <;> rw [h] <;> simp
    rw [handleListingEvent_undercut_path threshold settings floors e hE hU hminF hmaxF]
    have hmem : Alert.undercut
        (FloorTracker.isUndercut floors e.payload.collectionSlug e threshold).listingPrice
        (FloorTracker.isUndercut floors e.payload.collectionSlug e threshold).floorPrice
        (FloorTracker.isUndercut floors e.payload.collectionSlug e threshold).percentBelow ∈
        priceTriggerAlerts settings e ++
          [Alert.undercut
            (FloorTracker.isUndercut floors e.payload.collectionSlug e threshold).listingPrice
            (FloorTracker.isUndercut floors e.payload.collectionSlug e threshold).floorPrice
            (FloorTracker.isUndercut floors e.payload.collectionSlug e threshold).percentBelow] :=
      List.mem_append_right _ (List.mem_singleton.mpr rfl)
    rcases finishUpdateFloor_alerts_cases settings floors e.payload.collectionSlug
        e.payload.collectionName e (priceTriggerAlerts settings e ++
          [Alert.undercut
            (FloorTracker.isUndercut floors e.payload.collectionSlug e threshold).listingPrice
            (FloorTracker.isUndercut floors e.payload.collectionSlug e threshold).floorPrice
            (FloorTracker.isUndercut floors e.payload.collectionSlug e threshold).percentBelow])
        with h | ⟨pr, sym, h⟩
    · rw [h]
      exact hmem
    · rw [h]
      exact List.mem_append_left _ hmem
  · intro m hmin hpos hlt
    have hminB : minFilterBlocks settings
        (FloorTracker.isUndercut floors e.payload.collectionSlug e threshold).floorPrice = true := by
      unfold minFilterBlocks truthyNum
      rw [hmin]
      simp [hlt, ne_of_gt hpos]
    rw [handleListingEvent_blocked threshold settings floors e hE hU (Or.inl hminB)]
    simp [priceTriggerAlerts_disabled settings e hE]
  · intro M hmax hpos hgt
    have hmaxB : maxFilterBlocks settings
        (FloorTracker.isUndercut floors e.payload.collectionSlug e threshold).floorPrice = true := by
      unfold maxFilterBlocks truthyNum
      rw [hmax]
      simp [hgt, ne_of_gt hpos]
    rw [handleListingEvent_blocked threshold settings floors e hE hU (Or.inr hmaxB)]
    simp [priceTriggerAlerts_disabled settings e hE]

/-- Witness for C10: with both floor filters configured as exactly 0, a
flagged undercut still produces its alert. -/
theorem c10_zero_bound_filter_witness :
    Alert.undercut
      (FloorTracker.isUndercut floors1 "c" (evAt (1/2)) 0).listingPrice
      (FloorTracker.isUndercut floors1 "c" (evAt (1/2)) 0).floorPrice
      (FloorTracker.isUndercut floors1 "c" (evAt (1/2)) 0).percentBelow ∈
      (handleListingEvent 0 settingsZeroBounds floors1 (evAt (1/2))).alerts :=
  (c10_zero_bound_filter 0 settingsZeroBounds floors1 (evAt (1/2)) rfl
    (show (FloorTracker.isUndercut floors1 "c" (evAt (1/2)) 0).isUndercut = true by
      rw [isUndercut_floors1_half])).1
    (Or.inr rfl) (Or.inr rfl)

/-- C2 counterexample: with both Discord and Telegram configured, a
Discord send that rejects with `HTTP 500` leaves the attempted channels at
console and Discord only — Telegram is never attempted — and
`sendUndercutAlert` itself rejects with that error, escalating to its
caller (which awaits it without a catch).  This contradicts the claim that
the direct-message channel is still attempted and the failure is not
escalated. -/
theorem c2_counterexample :
    (sendUndercutAlert sampleConfig (HttpOutcome.failure "HTTP 500")
        HttpOutcome.success).1 = [Channel.console, Channel.discord] ∧
    (sendUndercutAlert sampleConfig (HttpOutcome.failure "HTTP 500")
        HttpOutcome.success).2 = Except.error "HTTP 500" := by
  constructor
  · rfl
  · rfl

/-- C2 (amended): whenever the webhook channel is configured and its send
rejects (non-2xx status or transport error), the Telegram channel is NOT
attempted for that alert and the rejection escapes `sendUndercutAlert` as
an error to the caller; `handleListingEvent` awaits the call with no
try/catch, so the rejection propagates out of the event handler as well. -/
theorem c2_webhook_failure_aborts (config : NotificationConfig)
    (tOut : HttpOutcome) (msg : String)
    (hD : discordEnabled config = true) :
    (sendUndercutAlert config (HttpOutcome.failure msg) tOut).1 =
      [Channel.console, Channel.discord] ∧
    (sendUndercutAlert config (HttpOutcome.failure msg) tOut).2 =
      Except.error msg := by
  unfold sendUndercutAlert dispatchToChannels makeHttpsRequest
  rw [if_pos hD]
  exact ⟨rfl, rfl⟩

/-- Witness for the amended C2 at the concrete configuration. -/
theorem c2_webhook_failure_aborts_witness :
    (sendUndercutAlert sampleConfig (HttpOutcome.failure "boom")
        HttpOutcome.success).1 = [Channel.console, Channel.discord] ∧
    (sendUndercutAlert sampleConfig (HttpOutcome.failure "boom")
        HttpOutcome.success).2 = Except.error "boom" :=
  c2_webhook_failure_aborts sampleConfig HttpOutcome.success "boom" (by decide)

/-- C8 counterexample: with a webhook URL and Telegram credentials both
configured (both channels enabled), `sendFloorUpdateAlert` still attempts
only the console channel — contradicting the claim that a floor-update
alert is delivered to each enabled channel. -/
theorem c8_counterexample :
    discordEnabled sampleConfig = true ∧
    telegramEnabled sampleConfig = true ∧
    (sendFloorUpdateAlert sampleConfig).1 = [Channel.console] := by
  refine ⟨by decide, by decide, rfl⟩

/-- C8 (amended): for undercut and price-trigger alerts the dispatcher
attempts the console channel always, the chat-webhook channel whenever a
webhook URL is configured, and the direct-message channel whenever bot
token and chat id are configured and no earlier webhook rejection aborted
the method; a floor-update alert — produced when the floor was updated and
floor-update alerts are not explicitly disabled (default-on when unset) —
is delivered to the console channel ONLY, regardless of webhook or
direct-message configuration. -/
theorem c8_dispatch_channels (config : NotificationConfig)
    (dOut tOut : HttpOutcome) (settings : BotSettings)
    (floors : CollectionFloors) (slug : String) (name : Option String)
    (e : ListingEvent) (acc : List Alert) :
    Channel.console ∈ (sendUndercutAlert config dOut tOut).1 ∧
    Channel.console ∈ (sendPriceTriggerAlert config dOut tOut).1 ∧
    (discordEnabled config = true →
      Channel.discord ∈ (sendUndercutAlert config dOut tOut).1) ∧
    (telegramEnabled config = true → discordEnabled config = true →
      dOut = HttpOutcome.success →
      Channel.telegram ∈ (sendUndercutAlert config dOut tOut).1) ∧
    (telegramEnabled config = true → discordEnabled config = false →
      Channel.telegram ∈ (sendUndercutAlert config dOut tOut).1) ∧
    sendFloorUpdateAlert config = ([Channel.console], Except.ok ()) ∧
    ((FloorTracker.updateFloor floors slug e).1 = true →
      settings.enableFloorUpdateAlerts ≠ some false →
      Alert.floorUpdate slug name (newFloorRecord e).price
          (newFloorRecord e).tokenSymbol ∈
        (finishUpdateFloor settings floors slug name e acc).alerts) := by
  have hchan : ∀ dO tO, Channel.console ∈ (dispatchToChannels config dO tO).1 := by
    intro dO tO
    unfold dispatchToChannels
    by_cases hD : discordEnabled config = true
    · rw [if_pos hD]
      cases hm : makeHttpsRequest dO with
      | error err => simp
      | ok u =>
          by_cases hT : telegramEnabled config = true
          · rw [if_pos hT]; simp
          · rw [if_neg hT]; simp
    · rw [if_neg hD]
      by_cases hT : telegramEnabled config = true
      · rw [if_pos hT]; simp
      · rw [if_neg hT]; simp
  refine ⟨hchan dOut tOut, hchan dOut tOut, ?_, ?_, ?_, rfl, ?_⟩
  · intro hD
    unfold sendUndercutAlert dispatchToChannels
    rw [if_pos hD]
    cases hm : makeHttpsRequest dOut with
    | error err => simp
    | ok u =>
        by_cases hT : telegramEnabled config = true
        · rw [if_pos hT]; simp
        · rw [if_neg hT]; simp
  · intro hT hD hsucc
    unfold sendUndercutAlert dispatchToChannels
    rw [if_pos hD, hsucc]
    show Channel.telegram ∈
      (if telegramEnabled config = true then
        ([Channel.console] ++ [Channel.discord, Channel.telegram],
          makeHttpsRequest tOut)
      else ([Channel.console] ++ [Channel.discord], Except.ok ())).1
    rw [if_pos hT]
    simp
  · intro hT hD
    unfold sendUndercutAlert dispatchToChannels
    rw [if_neg (by simp [hD]), if_pos hT]
    simp
  · intro hb he
    rw [finishUpdateFloor_floorUpdate_alert settings floors slug name e acc hb he]
    exact List.mem_append_right _ (List.mem_singleton.mpr rfl)

/-- Witness for the amended C8 at concrete inputs: all channels enabled
and both sends succeeding, plus a concrete floor-update production. -/
theorem c8_dispatch_channels_witness :
    Channel.discord ∈ (sendUndercutAlert sampleConfig HttpOutcome.success
      HttpOutcome.success).1 ∧
    Channel.telegram ∈ (sendUndercutAlert sampleConfig HttpOutcome.success
      HttpOutcome.success).1 ∧
    sendFloorUpdateAlert sampleConfig = ([Channel.console], Except.ok ()) ∧
    Alert.floorUpdate "c" none (newFloorRecord (evAt 1)).price
        (newFloorRecord (evAt 1)).tokenSymbol ∈
      (finishUpdateFloor settingsZeroBounds emptyFloors "c" none (evAt 1) []).alerts := by
  have h := c8_dispatch_channels sampleConfig HttpOutcome.success HttpOutcome.success
    settingsZeroBounds emptyFloors "c" none (evAt 1) []
  have hupd : (FloorTracker.updateFloor emptyFloors "c" (evAt 1)).1 = true := by
    rw [FloorTracker.updateFloor_eq_none emptyFloors "c" (evAt 1) rfl]
  refine ⟨h.2.2.1 (by decide), h.2.2.2.1 (by decide) (by decide) rfl, h.2.2.2.2.2.1,
    h.2.2.2.2.2.2 hupd (by simp [settingsZeroBounds])⟩

theorem setPriceAt_get (l : List FloorData) (ref : Nat) (p : ℚ) :
    (setPriceAt l ref p).get? ref = (l.get? ref).map fun r => { r with price := p } := by
  induction l generalizing ref with
  | nil => simp [setPriceAt]
  | cons r rest ih =>
      cases ref with
      | zero => simp [setPriceAt]
      | succ n => simpa [setPriceAt] using ih n

theorem JsHeap.read_writePrice (h : JsHeap) (ref : Nat) (p : ℚ) :
    (h.writePrice ref p).read ref = (h.read ref).map fun r => { r with price := p } := by
  unfold JsHeap.read JsHeap.writePrice
  exact setPriceAt_get h.recs ref p

/-- C9 counterexample: build a one-record tracker through `updateFloor`
under reference semantics; the snapshot returned by `getAllFloors` maps
`"c"` to the same record object (reference 0), and a caller's write
`snapshot["c"].price = 99` through that shared reference changes what the
tracker's own `getFloor` subsequently reports — from price 1 to price 99 —
contradicting the claim that any caller mutation of the returned value
leaves the tracker's observable state unchanged. -/
theorem c9_counterexample :
    lookupRef (jsGetAllFloors (jsUpdateFloor ⟨[]⟩ ⟨[]⟩ "c" (evAt 1)).2.2) "c" = some 0 ∧
    jsGetFloor (jsUpdateFloor ⟨[]⟩ ⟨[]⟩ "c" (evAt 1)).2.1
      (jsUpdateFloor ⟨[]⟩ ⟨[]⟩ "c" (evAt 1)).2.2 "c" = some (newFloorRecord (evAt 1)) ∧
    jsGetFloor ((jsUpdateFloor ⟨[]⟩ ⟨[]⟩ "c" (evAt 1)).2.1.writePrice 0 99)
      (jsUpdateFloor ⟨[]⟩ ⟨[]⟩ "c" (evAt 1)).2.2 "c" =
      some { newFloorRecord (evAt 1) with price := 99 } ∧
    ({ newFloorRecord (evAt 1) with price := 99 } : FloorData) ≠ newFloorRecord (evAt 1) := by
  refine ⟨rfl, rfl, rfl, ?_⟩
  intro hcontra
  have hp := congrArg FloorData.price hcontra
  rw [newFloorRecord_evAt_price] at hp
  norm_num at hp

/-- C9 (amended): `getAllFloors` returns only a shallow copy: the
top-level mapping is a fresh object, but the `FloorData` values are the
tracker's own record references, so a caller's field write through a
record obtained from the snapshot IS observed by the tracker's subsequent
`getFloor` reads (it changes the reported record's price in place). -/
theorem c9_shallow_copy (h : JsHeap) (t : JsTracker) (slug : String)
    (ref : Nat) (p : ℚ)
    (href : lookupRef (jsGetAllFloors t) slug = some ref) :
    jsGetFloor (h.writePrice ref p) t slug =
      (jsGetFloor h t slug).map fun r => { r with price := p } := by
  have href2 : lookupRef t.floors slug = some ref := href
  unfold jsGetFloor
  rw [href2]
  show (h.writePrice ref p).read ref = (h.read ref).map fun r => { r with price := p }
  exact JsHeap.read_writePrice h ref p

/-- Witness for the amended C9 at the concrete one-record state. -/
theorem c9_shallow_copy_witness :
    jsGetFloor ((jsUpdateFloor ⟨[]⟩ ⟨[]⟩ "c" (evAt 1)).2.1.writePrice 0 7)
      (jsUpdateFloor ⟨[]⟩ ⟨[]⟩ "c" (evAt 1)).2.2 "c" =
      (jsGetFloor (jsUpdateFloor ⟨[]⟩ ⟨[]⟩ "c" (evAt 1)).2.1
        (jsUpdateFloor ⟨[]⟩ ⟨[]⟩ "c" (evAt 1)).2.2 "c").map
        fun r => { r with price := 7 } :=
  c9_shallow_copy (jsUpdateFloor ⟨[]⟩ ⟨[]⟩ "c" (evAt 1)).2.1
    (jsUpdateFloor ⟨[]⟩ ⟨[]⟩ "c" (evAt 1)).2.2 "c" 0 7 rfl

end FloorMonitor
